import Mathlib

/-!
Shallow embedding of the lucid component library sources
(`Legend` from `src/unnamed/part_000`, `Panel` and `Points` from
`src/src/components/Panel/Panel.tsx`, `Banner` from
`src/src/components/Banner/Banner.tsx`) together with proofs of the
specification's claims about them.

Conventions of the embedding:
- JavaScript component props become Lean structures; optional props become
  `Option` fields (`none` models `undefined`).
- Opaque payloads (events, callback functions, nested child content, icon
  elements) are represented by `Nat` identifiers; what matters for the
  claims is identity, not internal structure.
- Rendered output is modelled by structures recording exactly the data the
  JSX emits: modifier-class booleans, rendered rows/regions, and the
  arguments partially applied to event handlers.
- Pass-through spreading of unrecognized props (`omitProps`) is orthogonal
  to every claim below and is not modelled.
-/

namespace Lucid

/-! ### Slot extraction (`findTypes` of `util/component-types`)

The children tree: each React element carries a component type tag and a
props payload.  A children collection is a sequence whose entries are
either single elements or one level of nested sequences. -/

structure ChildNode (π : Type) where
  tag : Nat
  props : π
deriving Repr, DecidableEq

inductive ChildEntry (π : Type) where
  | single (n : ChildNode π)
  | seq (ns : List (ChildNode π))
deriving Repr, DecidableEq

def entryNodes {π : Type} : ChildEntry π → List (ChildNode π)
  | ChildEntry.single n => [n]
  | ChildEntry.seq ns => ns

/-- Modelled from the spec: the implementation of `findTypes` lives in
`util/component-types`, which is not part of the given sources; the spec
(§4.1 SlotComposer) describes it: the children collection (possibly
empty, a single element, or one level of nested sequences) is flattened
to a single flat ordered sequence before filtering. -/
def flattenChildren {π : Type} (children : List (ChildEntry π)) : List (ChildNode π) :=
  children.flatMap entryNodes

/-- Modelled from the spec: `findTypes` (spec §4.1, `extractSlots`)
flattens the children collection and keeps, in order, exactly the
elements whose type tag matches the requested slot type; callers then
map `props` over the result. No error is raised for zero matches. -/
def findTypes {π : Type} (children : List (ChildEntry π)) (t : Nat) : List (ChildNode π) :=
  (flattenChildren children).filter (fun n => n.tag == t)

/-! ### Legend (`src/unnamed/part_000`) -/

def POINT_SIZE : Nat := 12
def LINE_WIDTH : Nat := 22

/-- Props of `Legend.Item` (`ILegendItemProps`).  `onClick` is an opaque
callback identity; `content` stands for the item's `children`. -/
structure ILegendItemProps where
  hasPoint : Bool := false
  hasLine : Bool := false
  pointKind : Option Nat := none
  color : Option String := none
  onClick : Option Nat := none
  className : Option String := none
  content : Nat := 0
deriving Repr, DecidableEq, Inhabited

/-- The component type tag of `Legend.Item` used by `findTypes`. -/
def legendItemTag : Nat := 1

/-- Props of `Legend` (`ILegendProps`), with the component's
`defaultProps` as field defaults. -/
structure ILegendProps where
  orient : String := "vertical"
  hasBorders : Bool := true
  isReversed : Bool := false
  className : Option String := none
  children : List (ChildEntry ILegendItemProps) := []
deriving Repr

/-- Result of a click on a legend row: either the no-op (no callback
declared) or the invocation of callback `cb` with `(index, { event,
props })`, mirroring `handleItemClick`. -/
inductive ClickResult where
  | noop
  | invoked (cb : Nat) (index : Nat) (event : Nat) (props : ILegendItemProps)
deriving Repr, DecidableEq

/-- `handleItemClick(index, props, event)`: returns without effect when
`props.onClick` is absent, otherwise calls `props.onClick(index, { props,
event })`. -/
def handleItemClick (index : Nat) (props : ILegendItemProps) (event : Nat) : ClickResult :=
  match props.onClick with
  | none => ClickResult.noop
  | some cb => ClickResult.invoked cb index event props

/-- The indicator `<svg>` of a legend item: width/height and the optional
`Point` (x, y, color, kind) and `Line` (path, color) marks inside it. -/
structure LegendIndicator where
  width : Nat
  height : Nat
  point : Option (Nat × Nat × Option String × Nat)
  line : Option (String × Option String)
deriving Repr, DecidableEq, Inhabited

/-- A rendered `<li>` row of the legend: its key and class, the two
arguments `_.partial(handleItemClick, index, itemProps[index])` binds,
the optional indicator svg, and the item's content. -/
structure LegendRow where
  key : Nat
  className : Option String
  boundIndex : Nat
  boundProps : ILegendItemProps
  indicator : Option LegendIndicator
  content : Nat
deriving Repr, DecidableEq, Inhabited

/-- Clicking a rendered row applies the bound handler to the event. -/
def rowClick (r : LegendRow) (event : Nat) : ClickResult :=
  handleItemClick r.boundIndex r.boundProps event

/-- The rendered `<ul>`: the conditional modifier classes of the root
element and the rendered rows, in extraction order. -/
structure LegendOutput where
  isHorizontalClass : Bool
  isVerticalClass : Bool
  hasBordersClass : Bool
  isReversedClass : Bool
  rootClassName : Option String
  rows : List LegendRow
deriving Repr, DecidableEq

/-- `itemProps`: props of the extracted `Legend.Item` children. -/
def legendItemProps (p : ILegendProps) : List ILegendItemProps :=
  (findTypes p.children legendItemTag).map ChildNode.props

/-- `hasSomeLines`: true when the legend is vertical and some extracted
item has `hasLine`. -/
def legendHasSomeLines (p : ILegendProps) : Bool :=
  (p.orient == "vertical") && (legendItemProps p).any (fun ip => ip.hasLine)

/-- The `d` attribute of the legend line mark:
`M0,${POINT_SIZE / 2} L${LINE_WIDTH},${POINT_SIZE / 2}`. -/
def legendLinePath : String :=
  "M0," ++ toString (POINT_SIZE / 2) ++ " L" ++ toString LINE_WIDTH ++ "," ++ toString (POINT_SIZE / 2)

/-- One `<li>` of the legend body (the mapper of lines 123-168 of the
source), at `index`, for item props `ip`, given the sequence-wide
`hasSomeLines` flag. -/
def mkLegendRow (hasSomeLines : Bool) (index : Nat) (ip : ILegendItemProps) : LegendRow :=
  { key := index
    className := ip.className
    boundIndex := index
    boundProps := ip
    indicator :=
      if ip.hasPoint || ip.hasLine then
        some
          { width := if ip.hasLine || hasSomeLines then LINE_WIDTH else POINT_SIZE
            height := POINT_SIZE
            point :=
              if ip.hasPoint then
                some
                  (if ip.hasLine || hasSomeLines then LINE_WIDTH / 2 else POINT_SIZE / 2,
                    POINT_SIZE / 2, ip.color, ip.pointKind.getD 1)
              else none
            line := if ip.hasLine then some (legendLinePath, ip.color) else none }
      else none
    content := ip.content }

/-- The `Legend` render function. -/
def renderLegend (p : ILegendProps) : LegendOutput :=
  { isHorizontalClass := p.orient == "horizontal"
    isVerticalClass := p.orient == "vertical"
    hasBordersClass := p.hasBorders
    isReversedClass := p.isReversed
    rootClassName := p.className
    rows := (legendItemProps p).enum.map (fun x => mkLegendRow (legendHasSomeLines p) x.1 x.2) }

/-! ### Panel (`src/src/components/Panel/Panel.tsx`, first component) -/

/-- Props carried by a child of `Panel`.  `Panel.Header` and
`Panel.Footer` read `description`, `className` and their own children
(`content`); other children are opaque content nodes. -/
structure PanelChildProps where
  description : Option String := none
  className : Option String := none
  content : Nat := 0
deriving Repr, DecidableEq, Inhabited

/-- Component type tag of `Panel.Header`. -/
def panelHeaderTag : Nat := 1

/-- Component type tag of `Panel.Footer`. -/
def panelFooterTag : Nat := 2

/-- Props of `Panel` (`IPanelProps`), with the destructuring defaults of
the render function. -/
structure IPanelProps where
  className : Option String := none
  isGutterless : Bool := false
  hasMargin : Bool := true
  isScrollable : Bool := true
  children : List (ChildEntry PanelChildProps) := []
deriving Repr

/-- A rendered `<header>` or `<footer>` region: the slot instance's props
spread onto the element, with the class recomposed as
`cx('&-Header', props.className)` (resp. `&-Footer`). -/
structure PanelRegion where
  props : PanelChildProps
  classes : List String
deriving Repr, DecidableEq

/-- The rendered `Panel` `<div>`. `contentChildren` is the rendered
content section: the original children in order, where `Panel.Header`
and `Panel.Footer` markers render `null` (their function components
return `null`) and therefore contribute nothing. -/
structure PanelOutput where
  isNotGutterlessClass : Bool
  hasMarginClass : Bool
  isScrollableClass : Bool
  rootClassName : Option String
  header : Option PanelRegion
  contentChildren : List (ChildNode PanelChildProps)
  footer : Option PanelRegion
deriving Repr, DecidableEq

/-- Rendering of a single child inside the content section: slot markers
(`Panel.Header`, `Panel.Footer`) are null-rendering components, every
other child renders as itself. -/
def renderPanelChild (n : ChildNode PanelChildProps) : Option (ChildNode PanelChildProps) :=
  if n.tag == panelHeaderTag || n.tag == panelFooterTag then none else some n

/-- The `Panel` render function.  `headerChildProp` and `footerChildProp`
are `_.first(_.map(findTypes(props, ...), 'props'))`. -/
def renderPanel (p : IPanelProps) : PanelOutput :=
  let headerChildProp := ((findTypes p.children panelHeaderTag).map ChildNode.props).head?
  let footerChildProp := ((findTypes p.children panelFooterTag).map ChildNode.props).head?
  { isNotGutterlessClass := !p.isGutterless
    hasMarginClass := p.hasMargin
    isScrollableClass := p.isScrollable
    rootClassName := p.className
    header := headerChildProp.map (fun hp =>
      { props := hp, classes := "&-Header" :: hp.className.toList })
    contentChildren := (flattenChildren p.children).filterMap renderPanelChild
    footer := footerChildProp.map (fun fp =>
      { props := fp, classes := "&-Footer" :: fp.className.toList }) }

/-! ### Banner (`src/src/components/Banner/Banner.tsx`) -/

/-- Props of `Banner` (`IBannerProps`) with its `defaultProps`; `icon`
is an opaque element identity (`none` models `null`). At runtime `kind`
may be any string, the declared union notwithstanding. -/
structure IBannerProps where
  icon : Option Nat := none
  isCloseable : Bool := true
  isFilled : Bool := true
  isSmall : Bool := false
  kind : String := "default"
  isClosed : Bool := false
  className : Option String := none
  content : Nat := 0
deriving Repr

/-- The rendered `<section>` of an open banner: its conditional modifier
classes and rendered parts. -/
structure BannerSection where
  hasIconClass : Bool
  hasCloseClass : Bool
  primaryClass : Bool
  successClass : Bool
  warningClass : Bool
  dangerClass : Bool
  infoClass : Bool
  smallClass : Bool
  filledClass : Bool
  icon : Option Nat
  content : Nat
  hasCloseIcon : Bool
deriving Repr, DecidableEq, Inhabited

/-- The `Banner` render function (inside the transition wrapper): when
`isClosed` nothing renders, otherwise the `<section>` with its modifier
classes. -/
def renderBanner (p : IBannerProps) : Option BannerSection :=
  let displayedIcon := p.icon
  if p.isClosed then none
  else
    some
      { hasIconClass := displayedIcon.isSome
        hasCloseClass := p.isCloseable
        primaryClass := p.kind == "primary"
        successClass := p.kind == "success"
        warningClass := p.kind == "warning"
        dangerClass := p.kind == "danger"
        infoClass := p.kind == "info"
        smallClass := p.isSmall
        filledClass := p.isFilled
        icon := displayedIcon
        content := p.content
        hasCloseIcon := p.isCloseable }

/-! ### Points (`src/src/components/Panel/Panel.tsx`, second component)

JavaScript runtime values relevant to the data path: finite numbers
(modelled over `Int`; the claims involve no fractional arithmetic),
`NaN`, strings, `Date` values, `undefined`, and arrays. -/

inductive JsVal where
  | num (z : Int)
  | nan
  | str (s : String)
  | date (t : Int)
  | undef
  | arr (xs : List JsVal)
deriving Repr, Inhabited

/-- `_.isFinite`: true exactly on finite numbers. -/
def isFiniteVal : JsVal → Bool
  | JsVal.num _ => true
  | _ => false

/-- `_.isDate`: true exactly on `Date` values. -/
def isDateVal : JsVal → Bool
  | JsVal.date _ => true
  | _ => false

/-- `isValidSeries`: an array is valid when its last element
(`undefined` for an empty array) is finite or a date; a non-array is
valid when it is itself finite or a date. -/
def isValidSeries : JsVal → Bool
  | JsVal.arr xs =>
    (match xs.getLast? with
     | some v => isFiniteVal v || isDateVal v
     | none => false)
  | v => isFiniteVal v || isDateVal v

/-- `_.isArray(series) ? _.last(series) : series` — the terminal value a
series occurrence is plotted at. -/
def seriesTerminal : JsVal → JsVal
  | JsVal.arr xs => (xs.getLast?).getD JsVal.undef
  | v => v

/-- A data row, a JS object: field name to value (`undefined` when
absent). -/
abbrev Row : Type := List (String × JsVal)

/-- `row[f]` — property access on a data row. -/
def rowGet (row : Row) (f : String) : JsVal :=
  (List.lookup f row).getD JsVal.undef

/-- `data[i][f]` for the x lookup of a point. -/
def dataAt (data : List Row) (i : Nat) (f : String) : JsVal :=
  rowGet (data.getD i []) f

/-- The numeric value of `row[f]` as consumed by the stacking transform;
the claims (and the component's documented contract) concern numeric y
data, so non-numbers contribute 0. -/
def rowNum (row : Row) (f : String) : Int :=
  match rowGet row f with
  | JsVal.num z => z
  | _ => 0

/-- Sum of the first `m` of the `keys` fields of a row — the running
cumulative sum of the stacking transform. -/
def rowCumSum (keys : List String) (m : Nat) (row : Row) : Int :=
  ((keys.take m).map (fun f => rowNum row f)).sum

/-- Cumulative sum of a row over all `keys` fields. -/
def rowTotal (keys : List String) (row : Row) : Int :=
  (keys.map (fun f => rowNum row f)).sum

/-- Modelled from the spec: `d3Shape.stack().keys(keys)(data)` is an
external collaborator (spec §6 and glossary: "transforming per-row
series values into cumulative sums"); per its documented contract the
result has one series per key, and the series for key `i` maps each row
to the pair of cumulative sums before and after adding that key's
value. -/
def d3Stack (keys : List String) (data : List Row) : List (List (Int × Int)) :=
  (List.range keys.length).map (fun i =>
    data.map (fun row => (rowCumSum keys i row, rowCumSum keys (i + 1) row)))

/-- `_.flatten` of a series of `[lower, upper]` pairs. -/
def flattenPairs (l : List (Int × Int)) : List Int :=
  l.flatMap (fun ab => [ab.1, ab.2])

/-- `_.max`: `undefined` on the empty array, otherwise the maximum. -/
def lodashMaxInt : List Int → Option Int
  | [] => none
  | x :: xs => some (xs.foldl max x)

/-- The environment a `Points` render runs in: the component's props,
with the d3 scales as opaque functions from values to pixel
coordinates. -/
structure PointsEnv where
  data : List Row := []
  palette : List String := []
  colorMap : List (String × String) := []
  colorOffset : Nat := 0
  xField : String := "x"
  yFields : List String := ["y"]
  hasStroke : Bool := true
  isStacked : Bool := false
  yStackedMax : Option Int := none
  xScale : JsVal → Int := fun _ => 0
  yScale : JsVal → Int := fun _ => 0

/-- `_.max(_.flatten(_.last(transformedData)))` of the stacked branch
(`_.flatten(undefined)` is `[]`, whose `_.max` is `undefined`). -/
def computedStackMax (env : PointsEnv) : Option Int :=
  lodashMaxInt (flattenPairs (((d3Stack env.yFields env.data).getLast?).getD []))

/-- The recomputed upper bound of the y-scale domain in the stacked
branch: `yStackedMax || _.max(_.flatten(_.last(transformedData)))` — a
falsy (zero or absent) `yStackedMax` falls through to the computed
maximum. -/
def stackedYDomainUpper (env : PointsEnv) : Option Int :=
  match env.yStackedMax with
  | some m => if m == 0 then computedStackMax env else some m
  | none => computedStackMax env

/-- A rendered `Point` mark. -/
structure PointMark where
  x : Int
  y : Int
  hasStroke : Bool
  kind : Nat
  color : String
deriving Repr, DecidableEq

/-- The color of the points of series `dIndex`:
`_.get(colorMap, yFields[dIndex], palette[(dIndex + colorOffset) %
palette.length])`. -/
def seriesColor (env : PointsEnv) (dIndex : Nat) : String :=
  let fallback := env.palette.getD ((dIndex + env.colorOffset) % env.palette.length) ""
  match env.yFields.get? dIndex with
  | some f =>
    match List.lookup f env.colorMap with
    | some c => c
    | none => fallback
  | none => fallback

/-- The body of the inner map of the `Points` render: a `Point` mark
when the series occurrence is valid, nothing (`undefined`) otherwise. -/
def pointEntry (env : PointsEnv) (dIndex seriesIndex : Nat) (series : JsVal) :
    Option PointMark :=
  if isValidSeries series then
    some
      { x := env.xScale (dataAt env.data seriesIndex env.xField)
        y := env.yScale (seriesTerminal series)
        hasStroke := env.hasStroke
        kind := dIndex + env.colorOffset
        color := seriesColor env dIndex }
  else none

/-- The body of the `Points` render (lines 328-352 of the source): the
nested map over `transformedData`, emitting a `Point` mark for each
valid series occurrence and nothing (`undefined`) for an invalid one.
`transformedData` is the stacked or grouped data, whichever branch
produced it. -/
def renderPointsBody (env : PointsEnv) (transformedData : List (List JsVal)) :
    List (List (Option PointMark)) :=
  transformedData.enum.map (fun dp =>
    dp.2.enum.map (fun sp => pointEntry env dp.1 sp.1 sp.2))

/-! ### Helper lemmas about the Legend rows -/

theorem renderLegend_rows_length (p : ILegendProps) :
    (renderLegend p).rows.length = (legendItemProps p).length := by
  simp [renderLegend]

theorem renderLegend_rows_getD (p : ILegendProps) (i : Nat)
    (h : i < (legendItemProps p).length) :
    (renderLegend p).rows.getD i default =
      mkLegendRow (legendHasSomeLines p) i ((legendItemProps p).getD i default) := by
  simp [renderLegend, List.getD_eq_getElem?_getD, List.getElem?_eq_getElem h,
    List.getElem?_eq_getElem (show i < (legendItemProps p).enum.length by simpa using h)]

theorem renderLegend_rows_getD_of_le (p : ILegendProps) (i : Nat)
    (h : (legendItemProps p).length ≤ i) :
    (renderLegend p).rows.getD i default = default := by
  have hlen : (renderLegend p).rows.length ≤ i := by
    simpa [renderLegend_rows_length] using h
  simp [List.getD_eq_getElem?_getD, List.getElem?_eq_none hlen]

theorem default_legendRow_indicator : (default : LegendRow).indicator = none := rfl

/-! ### Claim theorems about the Legend -/

/-- C1: in vertical orientation, if any extracted item requests a line
indicator then every rendered row that shows an indicator shows it at
the wide line width `LINE_WIDTH = 22`, never the narrow point-only width
`POINT_SIZE = 12`. -/
theorem legend_vertical_any_line_widens_all (p : ILegendProps)
    (hv : p.orient = "vertical")
    (hl : (legendItemProps p).any (fun ip => ip.hasLine) = true)
    (i : Nat) (ind : LegendIndicator)
    (h : ((renderLegend p).rows.getD i default).indicator = some ind) :
    ind.width = LINE_WIDTH := by
  by_cases hi : i < (legendItemProps p).length
  · rw [renderLegend_rows_getD p i hi] at h
    have hs : legendHasSomeLines p = true := by
      simp [legendHasSomeLines, hv, hl]
    simp [mkLegendRow, hs] at h
    rw [← h.2]
  · rw [renderLegend_rows_getD_of_le p i (Nat.le_of_not_lt hi)] at h
    simp [default_legendRow_indicator] at h

/-- Concrete check of C1: the spec's two-item example in vertical
orientation; both rows render their indicator at the wide size. -/
def c1legend : ILegendProps :=
  { orient := "vertical"
    children :=
      [ChildEntry.single ⟨legendItemTag, { hasLine := false, hasPoint := true }⟩,
        ChildEntry.single ⟨legendItemTag, { hasLine := true, hasPoint := false }⟩] }

theorem legend_vertical_any_line_widens_all_witness :
    c1legend.orient = "vertical" ∧
    (legendItemProps c1legend).any (fun ip => ip.hasLine) = true ∧
    (((renderLegend c1legend).rows.getD 0 default).indicator.getD default).width = LINE_WIDTH ∧
    (((renderLegend c1legend).rows.getD 1 default).indicator.getD default).width = LINE_WIDTH :=
  ⟨rfl, by decide,
    legend_vertical_any_line_widens_all c1legend rfl (by decide) 0
      (((renderLegend c1legend).rows.getD 0 default).indicator.getD default) rfl,
    legend_vertical_any_line_widens_all c1legend rfl (by decide) 1
      (((renderLegend c1legend).rows.getD 1 default).indicator.getD default) rfl⟩

/-- C9: outside vertical orientation the sizing is per-item: an item
with `hasLine` renders its indicator at the wide width, an item with a
point and no line renders it at the narrow width. -/
theorem legend_nonvertical_width_per_item (p : ILegendProps)
    (hnv : p.orient ≠ "vertical")
    (i : Nat) (hi : i < (legendItemProps p).length) :
    (((legendItemProps p).getD i default).hasLine = true →
      ((renderLegend p).rows.getD i default).indicator.map LegendIndicator.width =
        some LINE_WIDTH) ∧
    (((legendItemProps p).getD i default).hasPoint = true →
      ((legendItemProps p).getD i default).hasLine = false →
      ((renderLegend p).rows.getD i default).indicator.map LegendIndicator.width =
        some POINT_SIZE) := by
  rw [renderLegend_rows_getD p i hi]
  have hs : legendHasSomeLines p = false := by
    simp [legendHasSomeLines, hnv]
  set ip := (legendItemProps p).getD i default with hip
  constructor
  · intro hline
    simp [mkLegendRow, hline, hs]
  · intro hpoint hline
    simp [mkLegendRow, hline, hpoint, hs]

/-- Concrete check of C9: a horizontal legend with a point-only item and
a line item; the line item is wide, the point-only item narrow. -/
def c9legend : ILegendProps :=
  { orient := "horizontal"
    children :=
      [ChildEntry.single ⟨legendItemTag, { hasLine := false, hasPoint := true }⟩,
        ChildEntry.single ⟨legendItemTag, { hasLine := true, hasPoint := false }⟩] }

theorem legend_nonvertical_width_per_item_witness :
    c9legend.orient ≠ "vertical" ∧
    ((renderLegend c9legend).rows.getD 0 default).indicator.map LegendIndicator.width =
      some POINT_SIZE ∧
    ((renderLegend c9legend).rows.getD 1 default).indicator.map LegendIndicator.width =
      some LINE_WIDTH :=
  ⟨by decide,
    (legend_nonvertical_width_per_item c9legend (by decide) 0 (by decide)).2
      (by decide) (by decide),
    (legend_nonvertical_width_per_item c9legend (by decide) 1 (by decide)).1
      (by decide)⟩

/-- C4: a click on rendered row `i` invokes exactly the callback that
item `i` of the extracted sequence declared, passing the 0-based index
`i` together with the event and the item's props; an item without a
callback makes the click a no-op. -/
theorem legend_click_dispatch (p : ILegendProps) (i : Nat)
    (hi : i < (renderLegend p).rows.length) (e : Nat) :
    (((legendItemProps p).getD i default).onClick = none →
      rowClick ((renderLegend p).rows.getD i default) e = ClickResult.noop) ∧
    (∀ cb, ((legendItemProps p).getD i default).onClick = some cb →
      rowClick ((renderLegend p).rows.getD i default) e =
        ClickResult.invoked cb i e ((legendItemProps p).getD i default)) := by
  have hi' : i < (legendItemProps p).length := by
    simpa [renderLegend_rows_length] using hi
  rw [renderLegend_rows_getD p i hi']
  set ip := (legendItemProps p).getD i default with hip
  constructor
  · intro hnone
    simp [rowClick, mkLegendRow, handleItemClick, hnone]
  · intro cb hsome
    simp [rowClick, mkLegendRow, handleItemClick, hsome]

/-- Concrete check of C4: a three-row legend; row 1 declares callback 7
and receives index 1; row 0 declares none and clicking it is a no-op. -/
def c4legend : ILegendProps :=
  { children :=
      [ChildEntry.single ⟨legendItemTag, { hasLine := true }⟩,
        ChildEntry.single ⟨legendItemTag, { hasLine := false, onClick := some 7 }⟩,
        ChildEntry.single ⟨legendItemTag, { hasLine := false, onClick := some 9 }⟩] }

theorem legend_click_dispatch_witness :
    rowClick ((renderLegend c4legend).rows.getD 1 default) 42 =
      ClickResult.invoked 7 1 42 ((legendItemProps c4legend).getD 1 default) ∧
    rowClick ((renderLegend c4legend).rows.getD 0 default) 42 = ClickResult.noop :=
  ⟨(legend_click_dispatch c4legend 1 (by decide) 42).2 7 (by decide),
    (legend_click_dispatch c4legend 0 (by decide) 42).1 (by decide)⟩

/-- C5: toggling `isReversed` changes only the `&-is-reversed` class
flag on the root element; the rendered rows — and hence the index a
clicked row reports to its callback — are identical. -/
theorem legend_isReversed_only_class (p : ILegendProps) :
    (renderLegend { p with isReversed := true }).rows =
      (renderLegend { p with isReversed := false }).rows ∧
    (renderLegend { p with isReversed := true }).isHorizontalClass =
      (renderLegend { p with isReversed := false }).isHorizontalClass ∧
    (renderLegend { p with isReversed := true }).isVerticalClass =
      (renderLegend { p with isReversed := false }).isVerticalClass ∧
    (renderLegend { p with isReversed := true }).hasBordersClass =
      (renderLegend { p with isReversed := false }).hasBordersClass ∧
    (renderLegend { p with isReversed := true }).rootClassName =
      (renderLegend { p with isReversed := false }).rootClassName ∧
    (renderLegend { p with isReversed := true }).isReversedClass = true ∧
    (renderLegend { p with isReversed := false }).isReversedClass = false ∧
    (∀ i e,
      rowClick ((renderLegend { p with isReversed := true }).rows.getD i default) e =
        rowClick ((renderLegend { p with isReversed := false }).rows.getD i default) e) :=
  ⟨rfl, rfl, rfl, rfl, rfl, rfl, rfl, fun _ _ => rfl⟩

/-! ### Claim theorems about slot extraction -/

/-- C3: `findTypes` returns exactly the subsequence of the flattened
children carrying the requested tag — an order-preserving sublist, all
of whose elements carry the tag, containing every tagged element, whose
length is the number of tagged elements; in particular zero matches
yield the empty sequence. -/
theorem findTypes_extracts_tagged_subsequence {π : Type} (C : List (ChildEntry π)) (T : Nat) :
    (findTypes C T).Sublist (flattenChildren C) ∧
    (∀ n ∈ findTypes C T, n.tag = T) ∧
    (∀ n ∈ flattenChildren C, n.tag = T → n ∈ findTypes C T) ∧
    (findTypes C T).length = (flattenChildren C).countP (fun n => n.tag == T) := by
  refine ⟨List.filter_sublist _, ?_, ?_, ?_⟩
  · intro n hn
    simpa using List.of_mem_filter hn
  · intro n hn ht
    exact List.mem_filter.mpr ⟨hn, by simp [ht]⟩
  · simp [findTypes, List.countP_eq_length_filter]

/-- Concrete check of C3: a mixed children collection with a nested
sequence; tag 1 occurs twice, and a tag with zero matches yields `[]`. -/
def c3children : List (ChildEntry Nat) :=
  [ChildEntry.single ⟨1, 10⟩, ChildEntry.seq [⟨2, 20⟩, ⟨1, 30⟩], ChildEntry.single ⟨3, 40⟩]

theorem findTypes_extracts_tagged_subsequence_witness :
    (findTypes c3children 1).Sublist (flattenChildren c3children) ∧
    (findTypes c3children 1).length =
      (flattenChildren c3children).countP (fun n => n.tag == 1) ∧
    findTypes c3children 9 = [] :=
  ⟨(findTypes_extracts_tagged_subsequence c3children 1).1,
    (findTypes_extracts_tagged_subsequence c3children 1).2.2.2, by decide⟩

/-! ### Helper lemmas about Panel slot insertion -/

theorem flattenChildren_append {π : Type} (a b : List (ChildEntry π)) :
    flattenChildren (a ++ b) = flattenChildren a ++ flattenChildren b := by
  simp [flattenChildren]

theorem findTypes_append {π : Type} (a b : List (ChildEntry π)) (t : Nat) :
    findTypes (a ++ b) t = findTypes a t ++ findTypes b t := by
  simp [findTypes, flattenChildren]

theorem findTypes_single {π : Type} (n : ChildNode π) (t : Nat) :
    findTypes [ChildEntry.single n] t = if n.tag == t then [n] else [] := by
  simp [findTypes, flattenChildren, entryNodes, List.filter_cons]

theorem findTypes_insert_nonmatching {π : Type} (c1 c2 : List (ChildEntry π))
    (n : ChildNode π) (τ : Nat) (h : (n.tag == τ) = false) :
    findTypes (c1 ++ ChildEntry.single n :: c2) τ = findTypes (c1 ++ c2) τ := by
  have hs : ChildEntry.single n :: c2 = [ChildEntry.single n] ++ c2 := rfl
  rw [hs, findTypes_append, findTypes_append, findTypes_append, findTypes_single, h]
  simp

theorem findTypes_head?_insert (c1 c2 : List (ChildEntry PanelChildProps))
    (n : ChildNode PanelChildProps) (τ : Nat) (hfirst : findTypes c1 τ ≠ []) :
    ((findTypes (c1 ++ ChildEntry.single n :: c2) τ).map ChildNode.props).head? =
      ((findTypes (c1 ++ c2) τ).map ChildNode.props).head? := by
  obtain ⟨a, A, hA⟩ := List.exists_cons_of_ne_nil hfirst
  have hs : ChildEntry.single n :: c2 = [ChildEntry.single n] ++ c2 := rfl
  rw [hs, findTypes_append, findTypes_append, findTypes_append, hA]
  simp

theorem renderPanelChild_slot (n : ChildNode PanelChildProps)
    (h : n.tag = panelHeaderTag ∨ n.tag = panelFooterTag) :
    renderPanelChild n = none := by
  cases h <;> simp [renderPanelChild, *]

theorem panelContent_insert_slot (c1 c2 : List (ChildEntry PanelChildProps))
    (n : ChildNode PanelChildProps) (h : renderPanelChild n = none) :
    (flattenChildren (c1 ++ ChildEntry.single n :: c2)).filterMap renderPanelChild =
      (flattenChildren (c1 ++ c2)).filterMap renderPanelChild := by
  have hs : ChildEntry.single n :: c2 = [ChildEntry.single n] ++ c2 := rfl
  rw [hs, flattenChildren_append, flattenChildren_append, flattenChildren_append]
  simp [flattenChildren, entryNodes, h]

/-! ### Claim theorem about the Panel -/

/-- C6: when the children already contain an instance of a first-mode
slot (`Panel.Header` or `Panel.Footer`), inserting a further instance of
that slot anywhere later leaves the rendered output unchanged — only the
first instance's props are used and the later one renders nothing. -/
theorem panel_first_slot_extra_ignored (p : IPanelProps) (t : Nat)
    (ht : t = panelHeaderTag ∨ t = panelFooterTag)
    (c1 c2 : List (ChildEntry PanelChildProps)) (n : ChildNode PanelChildProps)
    (hc : p.children = c1 ++ ChildEntry.single n :: c2)
    (hn : n.tag = t)
    (hfirst : findTypes c1 t ≠ []) :
    renderPanel p = renderPanel { p with children := c1 ++ c2 } := by
  have hrc : renderPanelChild n = none := renderPanelChild_slot n (by rw [hn]; exact ht)
  rcases ht with h | h
  · subst h
    have hnf : (n.tag == panelFooterTag) = false := by
      simp [hn, panelHeaderTag, panelFooterTag]
    simp only [renderPanel, hc]
    rw [findTypes_head?_insert c1 c2 n panelHeaderTag (hn ▸ hfirst),
      findTypes_insert_nonmatching c1 c2 n panelFooterTag hnf,
      panelContent_insert_slot c1 c2 n hrc]
  · subst h
    have hnh : (n.tag == panelHeaderTag) = false := by
      simp [hn, panelHeaderTag, panelFooterTag]
    simp only [renderPanel, hc]
    rw [findTypes_head?_insert c1 c2 n panelFooterTag (hn ▸ hfirst),
      findTypes_insert_nonmatching c1 c2 n panelHeaderTag hnh,
      panelContent_insert_slot c1 c2 n hrc]

/-- Concrete check of C6: a panel with two `Panel.Header` children and
one ordinary child renders identically to the same panel without the
second header. -/
def c6front : List (ChildEntry PanelChildProps) :=
  [ChildEntry.single ⟨panelHeaderTag, { description := some "first header" }⟩]

def c6back : List (ChildEntry PanelChildProps) :=
  [ChildEntry.single ⟨0, { content := 5 }⟩]

def c6extra : ChildNode PanelChildProps :=
  ⟨panelHeaderTag, { description := some "second header" }⟩

def c6panel : IPanelProps :=
  { children := c6front ++ ChildEntry.single c6extra :: c6back }

theorem panel_first_slot_extra_ignored_witness :
    findTypes c6front panelHeaderTag ≠ [] ∧
    renderPanel c6panel = renderPanel { c6panel with children := c6front ++ c6back } :=
  ⟨by decide,
    panel_first_slot_extra_ignored c6panel panelHeaderTag (Or.inl rfl) c6front c6back c6extra
      rfl rfl (by decide)⟩

/-! ### Claim theorem about unrecognized enum tokens (Banner kind, Legend orient) -/

/-- C8: an unrecognized `kind` on a Banner renders without any of the
kind-specific modifier classes, and an unrecognized `orient` on a Legend
renders with neither the horizontal nor the vertical class; rendering is
total in both cases. -/
theorem unrecognized_enum_values_no_modifier (bp : IBannerProps) (lp : ILegendProps)
    (hk : bp.kind ∉ ["primary", "success", "warning", "danger", "info", "default"])
    (ho : lp.orient ∉ ["horizontal", "vertical"]) :
    (∀ sec, renderBanner bp = some sec →
      sec.primaryClass = false ∧ sec.successClass = false ∧ sec.warningClass = false ∧
        sec.dangerClass = false ∧ sec.infoClass = false) ∧
    (renderLegend lp).isHorizontalClass = false ∧
    (renderLegend lp).isVerticalClass = false := by
  simp only [List.mem_cons, List.not_mem_nil, or_false, not_or] at hk ho
  obtain ⟨hk1, hk2, hk3, hk4, hk5, -⟩ := hk
  obtain ⟨ho1, ho2⟩ := ho
  refine ⟨?_, ?_, ?_⟩
  · intro sec hsec
    unfold renderBanner at hsec
    split at hsec
    · exact absurd hsec (by simp)
    · obtain rfl := Option.some.inj hsec
      refine ⟨?_, ?_, ?_, ?_, ?_⟩ <;> simp [hk1, hk2, hk3, hk4, hk5]
  · simp [renderLegend, ho1]
  · simp [renderLegend, ho2]

/-- Concrete check of C8: a banner of kind `sparkly` and a legend with
orientation `diagonal`. -/
def c8banner : IBannerProps := { kind := "sparkly" }

def c8legendProps : ILegendProps := { orient := "diagonal" }

theorem unrecognized_enum_values_no_modifier_witness :
    c8banner.kind ∉ ["primary", "success", "warning", "danger", "info", "default"] ∧
    c8legendProps.orient ∉ ["horizontal", "vertical"] ∧
    (∃ sec, renderBanner c8banner = some sec) ∧
    ((renderBanner c8banner).getD default).primaryClass = false ∧
    ((renderBanner c8banner).getD default).infoClass = false ∧
    (renderLegend c8legendProps).isHorizontalClass = false ∧
    (renderLegend c8legendProps).isVerticalClass = false := by
  have h := unrecognized_enum_values_no_modifier c8banner c8legendProps (by decide) (by decide)
  exact ⟨by decide, by decide, ⟨(renderBanner c8banner).getD default, rfl⟩,
    (h.1 _ rfl).1, (h.1 _ rfl).2.2.2.2, h.2.1, h.2.2⟩

/-! ### Helper lemmas about the Points render body -/

theorem renderPointsBody_length (env : PointsEnv) (td : List (List JsVal)) :
    (renderPointsBody env td).length = td.length := by
  simp [renderPointsBody]

theorem renderPointsBody_getD (env : PointsEnv) (td : List (List JsVal)) (d : Nat)
    (hd : d < td.length) :
    (renderPointsBody env td).getD d [] =
      (td.getD d []).enum.map (fun sp => pointEntry env d sp.1 sp.2) := by
  simp [renderPointsBody, List.getD_eq_getElem?_getD, List.getElem?_eq_getElem hd,
    List.getElem?_eq_getElem (show d < td.enum.length by simpa using hd)]

theorem pointsInner_getD (env : PointsEnv) (d : Nat) (row : List JsVal) (s : Nat)
    (hs : s < row.length) :
    ((row.enum.map (fun sp => pointEntry env d sp.1 sp.2)).getD s none) =
      pointEntry env d s (row.getD s JsVal.undef) := by
  simp [List.getD_eq_getElem?_getD, List.getElem?_eq_getElem hs,
    List.getElem?_eq_getElem (show s < row.enum.length by simpa using hs)]

theorem pointsInner_getD_of_le (env : PointsEnv) (d : Nat) (row : List JsVal) (s : Nat)
    (hs : row.length ≤ s) :
    ((row.enum.map (fun sp => pointEntry env d sp.1 sp.2)).getD s none) = none := by
  have hlen : (row.enum.map (fun sp => pointEntry env d sp.1 sp.2)).length ≤ s := by simpa
  simp [List.getD_eq_getElem?_getD, List.getElem?_eq_none hlen]

/-! ### Claim theorems about the Points render -/

/-- C7: the render body preserves the shape of the transformed data, and
at each series occurrence emits no mark exactly when the occurrence's
terminal value is malformed (not finite, not a date) and a mark whenever
it is valid — one bad occurrence never affects the others nor aborts the
render. -/
theorem points_invalid_series_skipped (env : PointsEnv) (td : List (List JsVal))
    (d s : Nat) (hd : d < td.length) (hs : s < (td.getD d []).length) :
    (renderPointsBody env td).length = td.length ∧
    ((renderPointsBody env td).getD d []).length = (td.getD d []).length ∧
    (isValidSeries ((td.getD d []).getD s JsVal.undef) = false →
      ((renderPointsBody env td).getD d []).getD s none = none) ∧
    (isValidSeries ((td.getD d []).getD s JsVal.undef) = true →
      (((renderPointsBody env td).getD d []).getD s none).isSome = true) := by
  refine ⟨renderPointsBody_length env td, ?_, ?_, ?_⟩
  · rw [renderPointsBody_getD env td d hd]
    simp
  · intro hbad
    rw [renderPointsBody_getD env td d hd, pointsInner_getD env d _ s hs]
    unfold pointEntry
    rw [hbad]
    simp
  · intro hgood
    rw [renderPointsBody_getD env td d hd, pointsInner_getD env d _ s hs]
    unfold pointEntry
    rw [hgood]
    simp

/-- Concrete check of C7: transformed data with one malformed occurrence
(a string terminal value); it is skipped while the remaining valid
occurrences all still emit marks. -/
def c7td : List (List JsVal) :=
  [[JsVal.num 1, JsVal.str "oops"], [JsVal.num 2, JsVal.num 3]]

def c7env : PointsEnv := { data := [[("x", JsVal.num 0)], [("x", JsVal.num 1)]] }

theorem points_invalid_series_skipped_witness :
    isValidSeries ((c7td.getD 0 []).getD 1 JsVal.undef) = false ∧
    ((renderPointsBody c7env c7td).getD 0 []).getD 1 none = none ∧
    (((renderPointsBody c7env c7td).getD 0 []).getD 0 none).isSome = true ∧
    (((renderPointsBody c7env c7td).getD 1 []).getD 0 none).isSome = true ∧
    (((renderPointsBody c7env c7td).getD 1 []).getD 1 none).isSome = true :=
  ⟨by decide,
    (points_invalid_series_skipped c7env c7td 0 1 (by decide) (by decide)).2.2.1 (by decide),
    (points_invalid_series_skipped c7env c7td 0 0 (by decide) (by decide)).2.2.2 (by decide),
    (points_invalid_series_skipped c7env c7td 1 0 (by decide) (by decide)).2.2.2 (by decide),
    (points_invalid_series_skipped c7env c7td 1 1 (by decide) (by decide)).2.2.2 (by decide)⟩

theorem renderPointsBody_color (env : PointsEnv) (td : List (List JsVal))
    (d s : Nat) (mark : PointMark)
    (hm : ((renderPointsBody env td).getD d []).getD s none = some mark) :
    mark.color = seriesColor env d := by
  by_cases hd : d < td.length
  · rw [renderPointsBody_getD env td d hd] at hm
    by_cases hs : s < (td.getD d []).length
    · rw [pointsInner_getD env d _ s hs] at hm
      unfold pointEntry at hm
      split at hm
      · obtain rfl := Option.some.inj hm
        rfl
      · exact absurd hm (by simp)
    · rw [pointsInner_getD_of_le env d _ s (Nat.le_of_not_lt hs)] at hm
      exact absurd hm (by simp)
  · have hlen : (renderPointsBody env td).length ≤ d := by
      simpa [renderPointsBody_length] using Nat.le_of_not_lt hd
    have houter : (renderPointsBody env td).getD d [] = [] := by
      rw [List.getD_eq_getElem?_getD, List.getElem?_eq_none hlen]
      rfl
    rw [houter] at hm
    simp at hm

/-- C10: an emitted mark of series `d` is colored from `colorMap` when
an entry for `yFields[d]` exists, and otherwise from the palette at the
modular index `(d + colorOffset) % palette.length`, which is always in
bounds — series indices at or beyond the palette length reuse earlier
palette colors. -/
theorem points_color_cycles_palette (env : PointsEnv) (td : List (List JsVal))
    (d s : Nat) (mark : PointMark)
    (hm : ((renderPointsBody env td).getD d []).getD s none = some mark)
    (hp : env.palette ≠ []) :
    ((d + env.colorOffset) % env.palette.length < env.palette.length) ∧
    (∀ f, env.yFields[d]? = some f → List.lookup f env.colorMap = none →
      mark.color = env.palette.getD ((d + env.colorOffset) % env.palette.length) "") ∧
    (∀ f c, env.yFields[d]? = some f → List.lookup f env.colorMap = some c →
      mark.color = c) := by
  have hcol := renderPointsBody_color env td d s mark hm
  refine ⟨Nat.mod_lt _ (List.length_pos.mpr hp), ?_, ?_⟩
  · intro f hf hnone
    rw [hcol]
    simp [seriesColor, hf, hnone]
  · intro f c hf hsome
    rw [hcol]
    simp [seriesColor, hf, hsome]

/-- Concrete check of C10: three series over a two-color palette with a
`colorMap` entry for the second field only; series 2 wraps around to
palette color 0, series 1 takes its mapped color. -/
def c10env : PointsEnv :=
  { data := [[("x", JsVal.num 0)]]
    palette := ["red", "green"]
    colorMap := [("b", "#custom")]
    yFields := ["a", "b", "c"] }

def c10td : List (List JsVal) :=
  [[JsVal.num 1], [JsVal.num 2], [JsVal.num 3]]

def c10markWrapped : PointMark :=
  { x := 0, y := 0, hasStroke := true, kind := 2, color := "red" }

def c10markMapped : PointMark :=
  { x := 0, y := 0, hasStroke := true, kind := 1, color := "#custom" }

theorem points_color_cycles_palette_witness :
    ((renderPointsBody c10env c10td).getD 2 []).getD 0 none = some c10markWrapped ∧
    (2 + c10env.colorOffset) % c10env.palette.length < c10env.palette.length ∧
    c10markWrapped.color =
      c10env.palette.getD ((2 + c10env.colorOffset) % c10env.palette.length) "" ∧
    ((renderPointsBody c10env c10td).getD 1 []).getD 0 none = some c10markMapped ∧
    c10markMapped.color = "#custom" :=
  ⟨by decide,
    (points_color_cycles_palette c10env c10td 2 0 c10markWrapped (by decide) (by decide)).1,
    (points_color_cycles_palette c10env c10td 2 0 c10markWrapped (by decide) (by decide)).2.1
      "c" rfl (by decide),
    by decide,
    (points_color_cycles_palette c10env c10td 1 0 c10markMapped (by decide) (by decide)).2.2
      "b" "#custom" rfl (by decide)⟩

/-! ### Claim C2: the stacked y-domain upper bound -/

/-- The spec's stacking example rows:
`[{x:'a',y0:1,y1:2}, {x:'b',y0:3,y1:1}]`. -/
def c2data : List Row :=
  [[("x", JsVal.str "a"), ("y0", JsVal.num 1), ("y1", JsVal.num 2)],
    [("x", JsVal.str "b"), ("y0", JsVal.num 3), ("y1", JsVal.num 1)]]

def c2envZero : PointsEnv :=
  { data := c2data, yFields := ["y0", "y1"], isStacked := true, yStackedMax := some 0 }

/-- A single row whose last y field is negative:
`[{x:'a', y0:5, y1:-3}]`. -/
def c2dataNeg : List Row :=
  [[("x", JsVal.str "a"), ("y0", JsVal.num 5), ("y1", JsVal.num (-3))]]

def c2envNeg : PointsEnv :=
  { data := c2dataNeg, yFields := ["y0", "y1"], isStacked := true }

/-- C2 counterexamples, one per divergence of the claim from the code.
First, with the spec's example data and a supplied override
`yStackedMax = 0`, the code does not use the override verbatim — the
falsy `0` falls through `||` and the computed maximum 4 is used
instead.  Second, with no override and a negative last y value, the
code's `_.max` over the flattened `[lower, upper]` cumulative pairs of
the last stacked series gives 5, not the claimed maximum cumulative
row sum max(5 + (-3)) = 2. -/
theorem points_stacked_upper_bound_counterexamples :
    (c2envZero.isStacked = true ∧
      c2envZero.yStackedMax = some 0 ∧
      stackedYDomainUpper c2envZero = some 4 ∧
      stackedYDomainUpper c2envZero ≠ some 0) ∧
    (c2envNeg.isStacked = true ∧
      c2envNeg.yStackedMax = none ∧
      lodashMaxInt (c2envNeg.data.map (rowTotal c2envNeg.yFields)) = some 2 ∧
      stackedYDomainUpper c2envNeg = some 5 ∧
      stackedYDomainUpper c2envNeg ≠ some 2) :=
  ⟨⟨rfl, rfl, by decide, by decide⟩,
    ⟨rfl, rfl, by decide, by decide, by decide⟩⟩

theorem getLast?_range_map {α : Type} (n : Nat) (hn : n ≠ 0) (f : Nat → α) :
    ((List.range n).map f).getLast? = some (f (n - 1)) := by
  obtain ⟨m, rfl⟩ := Nat.exists_eq_succ_of_ne_zero hn
  rw [List.range_succ, List.map_append]
  simp

theorem d3Stack_getLast? (keys : List String) (data : List Row) (hk : keys ≠ []) :
    (d3Stack keys data).getLast? =
      some (data.map (fun row =>
        (rowCumSum keys (keys.length - 1) row, rowCumSum keys keys.length row))) := by
  unfold d3Stack
  rw [getLast?_range_map keys.length (by simpa using hk)]
  have hsucc : keys.length - 1 + 1 = keys.length :=
    Nat.succ_pred_eq_of_pos (List.length_pos.mpr hk)
  rw [hsucc]

theorem rowCumSum_length (keys : List String) (row : Row) :
    rowCumSum keys keys.length row = rowTotal keys row := by
  simp [rowCumSum, rowTotal, List.take_length]

theorem rowCumSum_succ (keys : List String) (m : Nat) (row : Row) (hm : m < keys.length) :
    rowCumSum keys (m + 1) row =
      rowCumSum keys m row + rowNum row (keys.getD m "") := by
  unfold rowCumSum
  rw [List.map_take, List.map_take,
    List.sum_take_succ _ m (by simpa using hm)]
  congr 1
  rw [List.getElem_map, List.getD_eq_getElem?_getD, List.getElem?_eq_getElem hm,
    Option.getD_some]

theorem flattenPairs_cons (p : Int × Int) (t : List (Int × Int)) :
    flattenPairs (p :: t) = p.1 :: p.2 :: flattenPairs t := rfl

theorem foldl_max_flattenPairs (t : List (Int × Int)) (h : ∀ q ∈ t, q.1 ≤ q.2) :
    ∀ b : Int, (flattenPairs t).foldl max b = (t.map Prod.snd).foldl max b := by
  induction t with
  | nil => intro b; rfl
  | cons p t ih =>
    intro b
    have hp : p.1 ≤ p.2 := h p (List.mem_cons_self p t)
    have ht : ∀ q ∈ t, q.1 ≤ q.2 := fun q hq => h q (List.mem_cons_of_mem p hq)
    have e : max (max b p.1) p.2 = max b p.2 := by
      rw [max_assoc, max_eq_right hp]
    rw [flattenPairs_cons, List.foldl_cons, List.foldl_cons, e, List.map_cons,
      List.foldl_cons]
    exact ih ht (max b p.2)

theorem lodashMaxInt_flattenPairs (l : List (Int × Int)) (h : ∀ q ∈ l, q.1 ≤ q.2) :
    lodashMaxInt (flattenPairs l) = lodashMaxInt (l.map Prod.snd) := by
  cases l with
  | nil => rfl
  | cons p t =>
    have hp : p.1 ≤ p.2 := h p (List.mem_cons_self p t)
    have ht : ∀ q ∈ t, q.1 ≤ q.2 := fun q hq => h q (List.mem_cons_of_mem p hq)
    rw [flattenPairs_cons, List.map_cons]
    show some (List.foldl max p.1 (p.2 :: flattenPairs t)) =
      some (List.foldl max p.2 (t.map Prod.snd))
    rw [List.foldl_cons, max_eq_right hp, foldl_max_flattenPairs t ht p.2]

theorem computedStackMax_eq (env : PointsEnv) (hf : env.yFields ≠ [])
    (hpos : ∀ row ∈ env.data, ∀ f ∈ env.yFields, 0 ≤ rowNum row f) :
    computedStackMax env = lodashMaxInt (env.data.map (rowTotal env.yFields)) := by
  unfold computedStackMax
  rw [d3Stack_getLast? env.yFields env.data hf]
  rw [Option.getD_some]
  have hlt : env.yFields.length - 1 < env.yFields.length :=
    Nat.sub_lt (List.length_pos.mpr hf) Nat.one_pos
  have hsucc : env.yFields.length - 1 + 1 = env.yFields.length :=
    Nat.succ_pred_eq_of_pos (List.length_pos.mpr hf)
  rw [lodashMaxInt_flattenPairs]
  · rw [List.map_map]
    apply congrArg
    apply List.map_congr_left
    intro row hrow
    simp [rowCumSum_length]
  · intro q hq
    obtain ⟨row, hrow, rfl⟩ := List.mem_map.mp hq
    show rowCumSum env.yFields (env.yFields.length - 1) row ≤
      rowCumSum env.yFields env.yFields.length row
    have key := rowCumSum_succ env.yFields (env.yFields.length - 1) row hlt
    rw [hsucc] at key
    have hmem : env.yFields.getD (env.yFields.length - 1) "" ∈ env.yFields := by
      rw [List.getD_eq_getElem?_getD, List.getElem?_eq_getElem hlt]
      exact List.getElem_mem hlt
    have hnn := hpos row hrow _ hmem
    omega

/-- C2 (amended): with `isStacked` and numeric non-negative y data, the
recomputed upper bound of the y-scale domain is the maximum over all
rows of the cumulative sum of the row's `yFields` values when
`yStackedMax` is absent — or when it is supplied but zero, since the
falsy override falls through `||`; a supplied nonzero override is used
verbatim. -/
theorem points_stacked_upper_bound (env : PointsEnv)
    (hst : env.isStacked = true)
    (hf : env.yFields ≠ [])
    (hpos : ∀ row ∈ env.data, ∀ f ∈ env.yFields, 0 ≤ rowNum row f) :
    (env.yStackedMax = none →
      stackedYDomainUpper env = lodashMaxInt (env.data.map (rowTotal env.yFields))) ∧
    (env.yStackedMax = some 0 →
      stackedYDomainUpper env = lodashMaxInt (env.data.map (rowTotal env.yFields))) ∧
    (∀ m, env.yStackedMax = some m → m ≠ 0 → stackedYDomainUpper env = some m) := by
  have hcomp := computedStackMax_eq env hf hpos
  refine ⟨?_, ?_, ?_⟩
  · intro h0
    simp [stackedYDomainUpper, h0, hcomp]
  · intro h0
    simp [stackedYDomainUpper, h0, hcomp]
  · intro m hm hm0
    simp [stackedYDomainUpper, hm, hm0]

/-- Concrete check of C2 (amended): the spec's example with no override
computes max(1+2, 3+1) = 4; with a nonzero override 10 the override is
used verbatim. -/
def c2env : PointsEnv :=
  { data := c2data, yFields := ["y0", "y1"], isStacked := true }

def c2envTen : PointsEnv :=
  { data := c2data, yFields := ["y0", "y1"], isStacked := true, yStackedMax := some 10 }

theorem points_stacked_upper_bound_witness :
    c2env.isStacked = true ∧
    (∀ row ∈ c2env.data, ∀ f ∈ c2env.yFields, 0 ≤ rowNum row f) ∧
    stackedYDomainUpper c2env = some 4 ∧
    lodashMaxInt (c2env.data.map (rowTotal c2env.yFields)) = some 4 ∧
    stackedYDomainUpper c2envTen = some 10 := by
  have h := points_stacked_upper_bound c2env rfl (by decide) (by decide)
  have h10 := points_stacked_upper_bound c2envTen rfl (by decide) (by decide)
  refine ⟨rfl, by decide, ?_, by decide, h10.2.2 10 rfl (by decide)⟩
  rw [h.1 rfl]
  decide

end Lucid
